/-
Verification of the Claude-God-Code backend against its specification.

Shallow embedding of the Python sources under `apps/backend/`:
  * `qa/criteria.py`  - issue/severity data model, test results, sign-offs
  * `qa/reviewer.py`  - review verdict computation (`CodeReviewer.review`,
    `run_qa_review`)
  * `qa/loop.py`      - recurring-issue detection and escalation
    (`QALoopState.get_recurring_issues`, `QALoop._should_escalate`)
  * `qa/fixer.py`     - fix generation and application
  * `spec/impact.py`  - impact severity scoring
  * `spec/complexity.py` - complexity analysis
  * `agents/session.py` - session orchestrator operations and store loading
  * `core/worktree.py`  - retry logic, push, worktree creation

Machine reals do not appear; the Python floats used as confidence scores
take only exact two-decimal values (0.8, 0.3, 0.5 and products with 0.7,
0.8), so they are embedded as natural numbers in hundredths.
Timestamps never influence any verified property, so `datetime` fields are
elided from the typed session record; the dynamically-typed loading path
models them explicitly.
-/
import Mathlib

namespace GodCode

/-! ### qa/criteria.py : data model -/

/-- `IssueSeverity` from `qa/criteria.py`. -/
inductive IssueSeverity where
  | critical
  | high
  | medium
  | low
  | info
deriving DecidableEq, Repr

/-- `QAIssue` from `qa/criteria.py` (all fields). -/
structure QAIssue where
  title : String
  severity : IssueSeverity
  description : String := ""
  location : Option String := none
  fix_required : Option String := none
  category : String := "general"
deriving DecidableEq, Repr

/-- `TestResults` from `qa/criteria.py`: pass/total counters per suite. -/
structure TestResults where
  unit_passed : Nat := 0
  unit_total : Nat := 0
  integration_passed : Nat := 0
  integration_total : Nat := 0
  e2e_passed : Nat := 0
  e2e_total : Nat := 0
deriving DecidableEq, Repr

/-- `TestResults.all_passed`: every suite's passed count equals its total. -/
def TestResults.allPassed (t : TestResults) : Bool :=
  (t.unit_passed == t.unit_total) &&
  (t.integration_passed == t.integration_total) &&
  (t.e2e_passed == t.e2e_total)

/-- `QAStatus` from `qa/criteria.py`. -/
inductive QAStatus where
  | pending
  | approved
  | rejected
  | fixes_applied
  | error
deriving DecidableEq, Repr

/-- `QASignoff` from `qa/criteria.py` (timestamp elided, see header). -/
structure QASignoff where
  status : QAStatus
  qa_session : Nat := 1
  issues_found : List QAIssue := []
  test_results : Option TestResults := none
  verified_by : String := "qa_agent"
  ready_for_revalidation : Bool := false
deriving DecidableEq, Repr

/-! ### qa/reviewer.py : review verdict -/

/-- The verdict computation at the end of `CodeReviewer.review`
(`qa/reviewer.py` lines 366-374): `passed` starts `True`, is set `False`
when any critical issue exists, otherwise `False` when there are at least
three high-severity issues. -/
def reviewPassed (issues : List QAIssue) : Bool :=
  let critical_issues := issues.filter (fun i => i.severity == IssueSeverity.critical)
  let high_issues := issues.filter (fun i => i.severity == IssueSeverity.high)
  if !critical_issues.isEmpty then false
  else if 3 ≤ high_issues.length then false
  else true

/-- The status string returned by `run_qa_review` (`qa/reviewer.py`
lines 509-545): `"error"` when the review raised, `"approved"` when the
review passed and all tests passed, else `"rejected"`.  `raised` models
the `except Exception` path. -/
def runQaReviewStatus (raised : Bool) (issues : List QAIssue) (tr : TestResults) : String :=
  if raised then "error"
  else if reviewPassed issues && tr.allPassed then "approved"
  else "rejected"

/-! ### qa/loop.py : recurring issues and escalation -/

/-- `RECURRING_ISSUE_THRESHOLD` from `qa/loop.py`. -/
def RECURRING_ISSUE_THRESHOLD : Nat := 3

/-- `MAX_CONSECUTIVE_ERRORS` from `qa/loop.py`. -/
def MAX_CONSECUTIVE_ERRORS : Nat := 3

/-- All issue titles in the iteration history, record by record, in
order; mirrors the nested loop of `QALoopState.get_recurring_issues`
that feeds `issue_counts` (`qa/loop.py` lines 109-112).  A `history`
entry is one iteration record's `issues_found` list. -/
def allTitles (history : List (List QAIssue)) : List String :=
  (history.map (fun record => record.map (fun i => i.title))).flatten

/-- Total number of occurrences of a title across the whole history:
the value `issue_counts[title]` ends with in
`QALoopState.get_recurring_issues`. -/
def countTitle (history : List (List QAIssue)) (title : String) : Nat :=
  (allTitles history).count title

/-- First-occurrence deduplication, mirroring the key set of the Python
dict `issue_counts` (insertion order, one entry per distinct title). -/
def dedupFirst : List String → List String
  | [] => []
  | t :: ts => t :: (dedupFirst ts).filter (fun x => x ≠ t)

/-- The titles reported by `QALoopState.get_recurring_issues`
(`qa/loop.py` lines 105-120): one entry per distinct title whose total
occurrence count reaches `RECURRING_ISSUE_THRESHOLD`.  The Python value
also carries each count and is sorted by count; membership is what
`_should_escalate` consumes, and is preserved here. -/
def recurringTitles (history : List (List QAIssue)) : List String :=
  (dedupFirst (allTitles history)).filter
    (fun t => decide (RECURRING_ISSUE_THRESHOLD ≤ countTitle history t))

/-- `QALoop._should_escalate` (`qa/loop.py` lines 246-259): escalate when
any recurring issue exists or `consecutive_errors` reached
`max_consecutive_errors`. -/
def shouldEscalate (history : List (List QAIssue))
    (consecutive_errors max_consecutive_errors : Nat) : Bool :=
  !(recurringTitles history).isEmpty ||
    (max_consecutive_errors ≤ consecutive_errors)

/-! ### spec/impact.py : severity scoring -/

/-- `ImpactSeverity` levels used by `ImpactAnalyzer._calculate_severity`. -/
inductive ImpactSeverity where
  | none
  | low
  | medium
  | high
  | critical
deriving DecidableEq, Repr

/-- Order of impact severity levels (`none < low < medium < high <
critical`), for stating monotonicity. -/
def ImpactSeverity.rank : ImpactSeverity → Nat
  | .none => 0
  | .low => 1
  | .medium => 2
  | .high => 3
  | .critical => 4

/-- `BreakingChange` fields consulted by the severity computation. -/
structure BreakingChange where
  change_type : String := ""
  location : String := ""
  description : String := ""
  migration_required : Bool := false
deriving DecidableEq, Repr

/-- `ImpactAnalyzer._assess_rollback_complexity` (`spec/impact.py`
lines 398-417). -/
def assessRollbackComplexity (affected_files : List String)
    (breaking_changes : List BreakingChange) : String :=
  if breaking_changes.any (fun bc => bc.migration_required) then "high"
  else if 20 < affected_files.length then "high"
  else if 10 < affected_files.length then "medium"
  else if 3 < breaking_changes.length then "medium"
  else "low"

/-- Affected-files contribution to the severity score
(`spec/impact.py` lines 431-439). -/
def fileScore (n : Nat) : Nat :=
  if 30 < n then 4 else if 15 < n then 3 else if 5 < n then 2
  else if 0 < n then 1 else 0

/-- Affected-services contribution (`spec/impact.py` lines 441-447). -/
def svcScore (n : Nat) : Nat :=
  if 3 < n then 3 else if 1 < n then 2 else if n == 1 then 1 else 0

/-- Breaking-changes contribution (`spec/impact.py` lines 449-457). -/
def bcScore (breaking_changes : List BreakingChange) : Nat :=
  if breaking_changes.any (fun bc => bc.migration_required) then 4
  else if 5 < breaking_changes.length then 3
  else if 2 < breaking_changes.length then 2
  else if 0 < breaking_changes.length then 1 else 0

/-- Test-gaps contribution (`spec/impact.py` lines 459-463). -/
def gapScore (n : Nat) : Nat :=
  if 5 < n then 2 else if 2 < n then 1 else 0

/-- Rollback-complexity contribution (`spec/impact.py` lines 465-469). -/
def rbScore (rollback_complexity : String) : Nat :=
  if rollback_complexity == "high" then 2
  else if rollback_complexity == "medium" then 1 else 0

/-- The numeric score accumulated by `ImpactAnalyzer._calculate_severity`
(`spec/impact.py` lines 428-469), as the sum of its five contributions. -/
def severityScore (affected_files affected_services : List String)
    (breaking_changes : List BreakingChange) (test_gaps : List String)
    (rollback_complexity : String) : Nat :=
  fileScore affected_files.length + svcScore affected_services.length +
    bcScore breaking_changes + gapScore test_gaps.length +
    rbScore rollback_complexity

/-- The score-to-severity mapping of `_calculate_severity`
(`spec/impact.py` lines 471-481): `≥10` critical, `≥7` high, `≥4` medium,
`≥1` low, else none. -/
def severityOfScore (score : Nat) : ImpactSeverity :=
  if 10 ≤ score then .critical
  else if 7 ≤ score then .high
  else if 4 ≤ score then .medium
  else if 1 ≤ score then .low
  else ImpactSeverity.none

/-- `ImpactAnalyzer._calculate_severity`, severity component (the
confidence component is the constant `0.7`). -/
def calculateSeverity (affected_files affected_services : List String)
    (breaking_changes : List BreakingChange) (test_gaps : List String)
    (rollback_complexity : String) : ImpactSeverity :=
  severityOfScore (severityScore affected_files affected_services
    breaking_changes test_gaps rollback_complexity)

/-! ### spec/complexity.py : complexity analysis

Keyword tests in the source use plain substring containment
(`kw in task_lower`); the integration / infrastructure detectors use
regexes of the shape `\b(alt1|alt2|...)\b`, modelled by an explicit
word-boundary search over the character list. -/

/-- `Complexity` from `spec/models.py` as consumed by
`ComplexityAnalyzer`. -/
inductive Complexity where
  | simple
  | standard
  | complex
  | critical
deriving DecidableEq, Repr

/-- `ProjectIndex` fields consulted by `_estimate_services`. -/
structure ProjectIndex where
  project_type : String := ""
  services : List String := []

/-- `Requirements` fields consulted by `ComplexityAnalyzer.analyze`. -/
structure Requirements where
  services_involved : List String := []
  acceptance_criteria : List String := []

/-- `SIMPLE_KEYWORDS` from `spec/complexity.py`. -/
def SIMPLE_KEYWORDS : List String :=
  ["fix", "typo", "update", "change", "rename", "remove", "delete",
   "adjust", "tweak", "correct", "modify", "style", "color", "text",
   "label", "button", "margin", "padding", "font", "size", "hide", "show",
   "comment", "readme", "docs", "documentation"]

/-- `STANDARD_KEYWORDS` from `spec/complexity.py`. -/
def STANDARD_KEYWORDS : List String :=
  ["add", "create", "implement", "feature", "component", "page", "form",
   "validation", "handler", "endpoint", "route", "service", "helper",
   "utility", "hook", "context", "state", "store"]

/-- `COMPLEX_KEYWORDS` from `spec/complexity.py`. -/
def COMPLEX_KEYWORDS : List String :=
  ["integrate", "integration", "api", "sdk", "library", "package",
   "database", "migrate", "migration", "docker", "kubernetes", "deploy",
   "authentication", "oauth", "graphql", "websocket", "queue", "cache",
   "redis", "postgres", "mongo", "elasticsearch", "kafka", "rabbitmq",
   "microservice", "refactor", "architecture", "infrastructure",
   "performance", "optimization", "security", "encryption"]

/-- `CRITICAL_KEYWORDS` from `spec/complexity.py`. -/
def CRITICAL_KEYWORDS : List String :=
  ["breaking", "major", "migration", "schema", "rollback", "downtime",
   "production", "critical", "urgent", "emergency", "security",
   "vulnerability", "data loss", "corruption", "recovery"]

/-- `MULTI_SERVICE_KEYWORDS` from `spec/complexity.py`. -/
def MULTI_SERVICE_KEYWORDS : List String :=
  ["backend", "frontend", "worker", "service", "api", "client", "server",
   "database", "queue", "cache", "proxy", "gateway", "microservice"]

/-- Python `str.lower()` on the ASCII task strings. -/
def toLowerStr (s : String) : String := String.mk (s.data.map Char.toLower)

/-- Contiguous-sublist test over character lists. -/
def listInfix (w : List Char) : List Char → Bool
  | [] => w.isEmpty
  | c :: rest => w.isPrefixOf (c :: rest) || listInfix w rest

/-- Python `kw in task_lower`: substring containment. -/
def containsSub (needle haystack : String) : Bool :=
  listInfix needle.data haystack.data

/-- `sum(1 for kw in KEYWORDS if kw in task_lower)`. -/
def keywordMatches (keywords : List String) (task_lower : String) : Nat :=
  (keywords.filter (fun kw => containsSub kw task_lower)).length

/-- Python regex `\w` for the ASCII inputs here: alphanumeric or
underscore. -/
def isWordChar (c : Char) : Bool := c.isAlphanum || c == '_'

/-- Word-ness of an optional character; the string edge counts as
non-word. -/
def wordnessOf : Option Char → Bool
  | Option.none => false
  | some c => isWordChar c

/-- A `\b` word boundary holds between two adjacent positions iff their
word-ness differs. -/
def boundaryBetween (a b : Option Char) : Bool := wordnessOf a != wordnessOf b

/-- One regex literal `\bw\b` matched at the current position: `w` is a
prefix of the remaining input, with word boundaries on both sides
(`prev` is the character just before the current position). -/
def matchesAt (w : List Char) (prev : Option Char) (s : List Char) : Bool :=
  w.isPrefixOf s &&
  boundaryBetween prev w.head? &&
  boundaryBetween w.getLast? (s.drop w.length).head?

/-- `re.search` for a `\b`-delimited literal: try every position. -/
def searchWordGo (w : List Char) : Option Char → List Char → Bool
  | prev, [] => matchesAt w prev []
  | prev, c :: rest => matchesAt w prev (c :: rest) || searchWordGo w (some c) rest

/-- `re.search(r"\b(a1|a2|...)\b", s)` for literal alternatives. -/
def searchWordAlts (alts : List String) (s : String) : Bool :=
  alts.any (fun w => searchWordGo w.data Option.none s.data)

/-- The `integration_patterns` table of
`ComplexityAnalyzer._detect_integrations` (`spec/complexity.py`
lines 169-182), with each regex expanded into its literal
alternatives. -/
def integrationPatterns : List (List String × String) :=
  [(["graphiti", "graphql", "apollo"], "graphql"),
   (["stripe", "paypal", "payment"], "payment"),
   (["auth0", "okta", "oauth", "jwt"], "auth"),
   (["aws", "gcp", "azure", "s3", "lambda"], "cloud"),
   (["redis", "memcached"], "cache"),
   (["postgres", "mysql", "mongodb", "database"], "database"),
   (["elasticsearch", "algolia"], "search"),
   (["kafka", "rabbitmq", "sqs"], "queue"),
   (["docker", "kubernetes", "k8s"], "container"),
   (["openai", "anthropic", "claude", "llm", "ai"], "ai"),
   (["sendgrid", "twilio"], "messaging"),
   (["github", "gitlab", "bitbucket"], "vcs")]

/-- `ComplexityAnalyzer._detect_integrations`: the matched categories.
The source collects them into a Python set; this list (in table order,
categories are pairwise distinct) is membership-faithful. -/
def detectIntegrations (task_lower : String) : List String :=
  (integrationPatterns.filter
    (fun p => searchWordAlts p.1 task_lower)).map (fun p => p.2)

/-- The `infra_patterns` literals of
`ComplexityAnalyzer._detect_infrastructure_changes`
(`spec/complexity.py` lines 193-208), each a `\b...\b` regex. -/
def infraPatterns : List String :=
  ["docker", "kubernetes", "k8s", "deploy", "infrastructure", "ci/cd",
   "environment", "config", ".env", "database migration", "schema",
   "terraform", "ansible", "helm"]

/-- `ComplexityAnalyzer._detect_infrastructure_changes`. -/
def detectInfrastructureChanges (task_lower : String) : Bool :=
  infraPatterns.any (fun p => searchWordGo p.data Option.none task_lower.data)

/-- The file-extension alternatives of the regex
`\.(tsx?|jsx?|py|go|rs|java|rb|php|vue|svelte)\b` in
`_estimate_files`, expanded in backtracking order (greedy `x?`). -/
def fileExtAlts : List String :=
  ["tsx", "ts", "jsx", "js", "py", "go", "rs", "java", "rb", "php",
   "vue", "svelte"]

/-- Try the extension alternatives at a position just past a `.`;
returns the matched extension length (with trailing `\b`). -/
def tryExtAlts : List (List Char) → List Char → Option Nat
  | [], _ => Option.none
  | alt :: alts, rest =>
    if alt.isPrefixOf rest &&
        boundaryBetween alt.getLast? (rest.drop alt.length).head? then
      some alt.length
    else tryExtAlts alts rest

/-- Fuel-indexed scanner for `countFileMentions`; every step consumes at
least one character, so fuel equal to the list length never runs out. -/
def countFileMentionsGo : Nat → List Char → Nat
  | 0, _ => 0
  | _ + 1, [] => 0
  | fuel + 1, c :: rest =>
    if c == '.' then
      match tryExtAlts (fileExtAlts.map (fun a => a.data)) rest with
      | some len => 1 + countFileMentionsGo fuel (rest.drop len)
      | Option.none => countFileMentionsGo fuel rest
    else countFileMentionsGo fuel rest

/-- `len(re.findall(r"\.(tsx?|...)\b", task_lower))`: non-overlapping
left-to-right matches. -/
def countFileMentions (l : List Char) : Nat := countFileMentionsGo l.length l

/-- `ComplexityAnalyzer._estimate_files` (`spec/complexity.py`
lines 215-240); its `requirements` parameter is unused in the source
body. -/
def estimateFiles (task_lower : String) : Nat :=
  if ["single", "one file", "one component", "this file"].any
      (fun kw => containsSub kw task_lower) then 1
  else
    let file_mentions := countFileMentions task_lower.data
    if 0 < file_mentions then max 1 file_mentions
    else if SIMPLE_KEYWORDS.any (fun kw => containsSub kw task_lower) then 2
    else if STANDARD_KEYWORDS.any (fun kw => containsSub kw task_lower) then 5
    else if COMPLEX_KEYWORDS.any (fun kw => containsSub kw task_lower) then 15
    else if CRITICAL_KEYWORDS.any (fun kw => containsSub kw task_lower) then 25
    else 5

/-- `ComplexityAnalyzer._estimate_services` (`spec/complexity.py`
lines 242-259). -/
def estimateServices (project_index : Option ProjectIndex)
    (task_lower : String) : Nat :=
  let service_count := keywordMatches MULTI_SERVICE_KEYWORDS task_lower
  let viaIndex : Option Nat :=
    match project_index with
    | some idx =>
      if idx.project_type == "monorepo" && !idx.services.isEmpty then
        let mentioned := (idx.services.filter
          (fun svc => containsSub (toLowerStr svc) task_lower)).length
        if 0 < mentioned then some mentioned else Option.none
      else Option.none
    | Option.none => Option.none
  match viaIndex with
  | some n => n
  | Option.none => max 1 (min service_count 5)

/-- The `research_triggers` of `ComplexityAnalyzer._needs_research`. -/
def RESEARCH_TRIGGERS : List String :=
  ["investigate", "research", "explore", "analyze", "understand",
   "figure out", "find out", "determine", "evaluate", "compare",
   "best practice", "how to", "should we", "recommendation"]

/-- `ComplexityAnalyzer._needs_research`. -/
def needsResearch (task_lower : String) (integrations : List String) : Bool :=
  RESEARCH_TRIGGERS.any (fun t => containsSub t task_lower) ||
    !integrations.isEmpty

/-- `ComplexityAnalyzer._calculate_complexity` (`spec/complexity.py`
lines 278-333), complexity component (confidence and reasoning strings
elided; `signals` entries are passed as the explicit counts the source
reads from the dict). -/
def calcComplexity (simple_kw complex_kw : Nat) (integrations : List String)
    (infra_changes : Bool) (estimated_files estimated_services : Nat)
    (critical_matches : Nat) : Complexity :=
  if 2 ≤ critical_matches ||
      (infra_changes && 3 ≤ estimated_services) ||
      (3 ≤ integrations.length && 15 ≤ estimated_files) then
    Complexity.critical
  else if 2 ≤ integrations.length || infra_changes ||
      3 ≤ estimated_services || 10 ≤ estimated_files ||
      3 ≤ complex_kw then
    Complexity.complex
  else if estimated_files ≤ 2 && estimated_services == 1 &&
      integrations.isEmpty && !infra_changes &&
      0 < simple_kw && complex_kw == 0 then
    Complexity.simple
  else Complexity.standard

/-- The fields of `ComplexityAssessment` produced by
`ComplexityAnalyzer.analyze` that the claims consult (confidence,
reasoning and the raw signals dict elided). -/
structure ComplexityAssessment where
  complexity : Complexity
  estimated_files : Nat
  estimated_services : Nat
  external_integrations : List String
  infrastructure_changes : Bool
  needs_research : Bool
  needs_self_critique : Bool
  needs_impact_analysis : Bool
deriving DecidableEq, Repr

/-- `ComplexityAnalyzer.analyze` (`spec/complexity.py` lines 77-165).
The acceptance-criteria boost `complex_matches += 1` in the source only
updates a local that is never read again (`_calculate_complexity` reads
the pre-boost value from `signals`), so it has no observable effect. -/
def analyze (project_index : Option ProjectIndex) (task_description : String)
    (requirements : Option Requirements) : ComplexityAssessment :=
  let task_lower := toLowerStr task_description
  let simple_matches := keywordMatches SIMPLE_KEYWORDS task_lower
  let complex_matches := keywordMatches COMPLEX_KEYWORDS task_lower
  let critical_matches := keywordMatches CRITICAL_KEYWORDS task_lower
  let integrations := detectIntegrations task_lower
  let infra_changes := detectInfrastructureChanges task_lower
  let estimated_files := estimateFiles task_lower
  let estimated_services0 := estimateServices project_index task_lower
  let estimated_services :=
    match requirements with
    | some r => max estimated_services0 r.services_involved.length
    | Option.none => estimated_services0
  let complexity := calcComplexity simple_matches complex_matches
    integrations infra_changes estimated_files estimated_services
    critical_matches
  { complexity := complexity,
    estimated_files := estimated_files,
    estimated_services := estimated_services,
    external_integrations := integrations,
    infrastructure_changes := infra_changes,
    needs_research := needsResearch task_lower integrations,
    needs_self_critique :=
      complexity == Complexity.complex || complexity == Complexity.critical,
    needs_impact_analysis :=
      5 < estimated_files || 1 < estimated_services ||
        !integrations.isEmpty || infra_changes }

/-! ### qa/fixer.py : fix generation and application

The filesystem visible to the fixer is modelled as an association list
from path to file content; file contents in scope use `\n` line
separators only, matching what the fixer itself writes back.
Confidence floats take only exact two-decimal values and are embedded
in hundredths (`min_confidence` default `0.7` becomes `70`). -/

/-- `FixStrategy` from `qa/fixer.py`. -/
inductive FixStrategy where
  | replace
  | insert
  | delete
  | refactor
  | manual
deriving DecidableEq, Repr

/-- `Fix` from `qa/fixer.py` (confidence in hundredths). -/
structure Fix where
  issue : QAIssue
  strategy : FixStrategy
  description : String
  file_path : Option String := Option.none
  line_number : Option Nat := Option.none
  original_code : Option String := Option.none
  fixed_code : Option String := Option.none
  confidence : Nat := 80
  applied : Bool := false
  error : Option String := Option.none
deriving DecidableEq, Repr

/-- `FixResult` from `qa/fixer.py`. -/
structure FixResult where
  success : Bool
  fixes_applied : List Fix := []
  fixes_failed : List Fix := []
  fixes_skipped : List Fix := []
  ready_for_revalidation : Bool := false
  message : String := ""
deriving DecidableEq, Repr

/-- The repository filesystem as seen by the fixer: path to content. -/
abbrev FS := List (String × String)

/-- File lookup (`full_path.exists()` / `read_text`). -/
def fsRead (fs : FS) (p : String) : Option String :=
  (List.find? (fun e => e.1 == p) fs).map (fun e => e.2)

/-- `write_text` to an existing file (the fixer only writes after an
existence check). -/
def fsWrite (fs : FS) (p : String) (content : String) : FS :=
  List.map (fun e => if e.1 == p then (e.1, content) else e) fs

/-- Splitter for `splitlines` (newline-separated contents). -/
def splitOnNlGo : List Char → List Char → List (List Char)
  | acc, [] => [acc.reverse]
  | acc, c :: rest =>
    if c == '\n' then acc.reverse :: splitOnNlGo [] rest
    else splitOnNlGo (c :: acc) rest

/-- Python `str.splitlines()` for `\n`-separated content: no entry for a
trailing newline, and `[]` on the empty string. -/
def splitlines (s : String) : List String :=
  if s.data.isEmpty then []
  else
    let parts := (splitOnNlGo [] s.data).map String.mk
    if s.data.getLast? == some '\n' then parts.dropLast else parts

/-- Python truthiness of an optional string (`None` and `""` falsy). -/
def strTruthy : Option String → Bool
  | Option.none => false
  | some s => !s.data.isEmpty

/-- Python truthiness of an optional line number (`None` and `0`
falsy). -/
def lineTruthy : Option Nat → Bool
  | Option.none => false
  | some n => n != 0

/-- Python `str.replace` (leftmost, non-overlapping, all occurrences)
over character lists, fuel-indexed by the subject length. -/
def replaceGo (pat rep : List Char) : Nat → List Char → List Char
  | 0, s => s
  | _ + 1, [] => []
  | fuel + 1, c :: rest =>
    if !pat.isEmpty && pat.isPrefixOf (c :: rest) then
      rep ++ replaceGo pat rep fuel ((c :: rest).drop pat.length)
    else c :: replaceGo pat rep fuel rest

/-- Python `str.replace` on strings. -/
def strReplace (s pat rep : String) : String :=
  String.mk (replaceGo pat.data rep.data s.data.length s.data)

/-- Python `str.upper()` on ASCII strings. -/
def toUpperStr (s : String) : String := String.mk (s.data.map Char.toUpper)

/-- Python `str.lstrip()`. -/
def lstrip (s : String) : String :=
  String.mk (s.data.dropWhile (fun c => c.isWhitespace))

/-- `re.search(r"(\w+)\s*=", code)`: the leftmost maximal word-character
run that, after optional whitespace, is followed by `=` (no shorter run
can succeed where the maximal one fails, so backtracking is elided).
Fuel-indexed by the subject length. -/
def identBeforeEqGo : Nat → List Char → Option (List Char)
  | 0, _ => Option.none
  | _ + 1, [] => Option.none
  | fuel + 1, c :: rest =>
    if isWordChar c then
      let run := (c :: rest).takeWhile isWordChar
      let after := (c :: rest).drop run.length
      let afterSpaces := after.dropWhile (fun x => x.isWhitespace)
      if afterSpaces.head? == some '=' then some run
      else identBeforeEqGo fuel after
    else identBeforeEqGo fuel rest

/-- Entry point for the `(\w+)\s*=` search. -/
def identBeforeEq (l : List Char) : Option (List Char) :=
  identBeforeEqGo l.length l

/-- `re.search(r"except\s+(\w+)", code)`: leftmost literal `except`
followed by at least one whitespace and then a word run. -/
def exceptIdentGo : Nat → List Char → Option (List Char)
  | 0, _ => Option.none
  | _ + 1, [] => Option.none
  | fuel + 1, c :: rest =>
    if ("except".data).isPrefixOf (c :: rest) then
      let after := (c :: rest).drop 6
      let spaces := after.takeWhile (fun x => x.isWhitespace)
      if spaces.isEmpty then exceptIdentGo fuel rest
      else
        let run := (after.drop spaces.length).takeWhile isWordChar
        if run.isEmpty then exceptIdentGo fuel rest
        else some run
    else exceptIdentGo fuel rest

/-- Entry point for the `except\s+(\w+)` search. -/
def exceptIdent (l : List Char) : Option (List Char) :=
  exceptIdentGo l.length l

/-- `FixGenerator._apply_fix_template` (`qa/fixer.py` lines 191-213). -/
def applyFixTemplate (tmpl : String) (original_code : String) : String :=
  let r1 :=
    match identBeforeEq original_code.data with
    | some run => strReplace tmpl "{var_name}" (toUpperStr (String.mk run))
    | Option.none => tmpl
  match exceptIdent original_code.data with
  | some run => strReplace r1 "{exception}" (String.mk run)
  | Option.none => strReplace r1 "{exception}" "Exception"

/-- The `_fix_patterns` table of `FixGenerator` (`qa/fixer.py`
lines 103-130): key, strategy, description, optional fix template. -/
def fixPatterns : List (String × FixStrategy × String × Option String) :=
  [("hardcoded_secrets", FixStrategy.replace,
    "Move secret to environment variable",
    some "os.environ.get(\"{var_name}\", \"\")"),
   ("debug_statements", FixStrategy.delete,
    "Remove debug statement", Option.none),
   ("empty_except", FixStrategy.replace,
    "Add proper exception handling",
    some "except {exception} as e:\n    logger.error(f\x27Error: {e}\x27)"),
   ("eval_usage", FixStrategy.refactor,
    "Replace eval with safer alternative", Option.none),
   ("todo_comments", FixStrategy.manual,
    "Review and resolve TODO comment", Option.none),
   ("any_type", FixStrategy.refactor,
    "Replace \x27any\x27 with proper type", Option.none)]

/-- `str.rsplit(sep, 1)` helper: the part before the last separator and,
when a separator exists, the part after it. -/
def rsplit1 (sep : Char) : List Char → List Char × Option (List Char)
  | [] => ([], Option.none)
  | c :: rest =>
    match rsplit1 sep rest with
    | (f, some l) => (c :: f, some l)
    | (f, Option.none) =>
      if c == sep then ([], some rest) else (c :: f, Option.none)

/-- Python `int` on a digit string. -/
def parseNatDigits (l : List Char) : Nat :=
  l.foldl (fun n c => n * 10 + (c.toNat - '0'.toNat)) 0

/-- `FixGenerator._parse_location` (`qa/fixer.py` lines 132-141). -/
def parseLocation (location : String) : Option String × Option Nat :=
  if location.data.isEmpty then (Option.none, Option.none)
  else
    match rsplit1 ':' location.data with
    | (_, Option.none) => (some location, Option.none)
    | (f, some aft) =>
      let line :=
        if !aft.isEmpty && aft.all (fun c => c.isDigit)
        then some (parseNatDigits aft) else Option.none
      (some (String.mk f), line)

/-- `FixGenerator._read_file_line` (`qa/fixer.py` lines 143-152):
1-indexed line access, `None` when unreadable or out of range. -/
def readFileLine (fs : FS) (file_path : String) (line_number : Nat) : Option String :=
  match fsRead fs file_path with
  | Option.none => Option.none
  | some content =>
    let lines := splitlines content
    if 0 < line_number && line_number ≤ lines.length
    then lines.get? (line_number - 1) else Option.none

/-- `FixGenerator._calculate_confidence` (`qa/fixer.py` lines 215-231),
in hundredths; all products are exact at two decimals, so Python's
`round(x, 2)` is the identity here. -/
def calculateConfidence (issue : QAIssue) (strategy : FixStrategy) : Nat :=
  let base : Nat :=
    match strategy with
    | FixStrategy.manual => 30
    | FixStrategy.refactor => 50
    | _ => 80
  match issue.severity with
  | IssueSeverity.critical => base * 70 / 100
  | IssueSeverity.high => base * 80 / 100
  | _ => base

/-- `FixGenerator.generate_fix` (`qa/fixer.py` lines 154-189).  Note the
Python truthiness guard `if fix_template and original_code:`—an empty
original line yields no `fixed_code`. -/
def generateFix (fs : FS) (issue : QAIssue) : Fix :=
  let issue_key := String.mk
    ((toLowerStr issue.title).data.map (fun c => if c == ' ' then '_' else c))
  let pat := List.find? (fun p => p.1 == issue_key) fixPatterns
  let strategy := match pat with
    | some p => p.2.1
    | Option.none => FixStrategy.manual
  let description := match pat with
    | some p => p.2.2.1
    | Option.none => "Fix " ++ issue.title
  let loc := match issue.location with
    | some l => l
    | Option.none => ""
  let (file_path, line_number) := parseLocation loc
  let original_code : Option String :=
    match file_path, line_number with
    | some fp, some ln => readFileLine fs fp ln
    | _, _ => Option.none
  let tmpl : Option String := match pat with
    | some p => p.2.2.2
    | Option.none => Option.none
  let fixed_code : Option String :=
    match tmpl, original_code with
    | some t, some oc =>
      if !t.data.isEmpty && !oc.data.isEmpty
      then some (applyFixTemplate t oc) else Option.none
    | _, _ => Option.none
  { issue := issue, strategy := strategy, description := description,
    file_path := file_path, line_number := line_number,
    original_code := original_code, fixed_code := fixed_code,
    confidence := calculateConfidence issue strategy }

/-- `Fixer._apply_fix` (`qa/fixer.py` lines 251-300): returns whether
the fix was applied, the updated fix record, and the updated
filesystem.  When the strategy branch does not fire (e.g. a falsy line
number) the file is still rewritten unchanged and `True` is returned,
as in the source. -/
def applyFix (fs : FS) (fix : Fix) : Bool × Fix × FS :=
  match fix.file_path with
  | Option.none => (false, fix, fs)
  | some fp =>
    if fix.strategy != FixStrategy.delete && !(strTruthy fix.fixed_code) then
      (false, fix, fs)
    else if fix.strategy == FixStrategy.manual then (false, fix, fs)
    else
      match fsRead fs fp with
      | Option.none =>
        (false, { fix with error := some ("File not found: " ++ fp) }, fs)
      | some content =>
        let lines := splitlines content
        let newLines :=
          if fix.strategy == FixStrategy.replace && lineTruthy fix.line_number then
            match fix.line_number with
            | some ln =>
              if 0 < ln && ln ≤ lines.length then
                let original := lines.getD (ln - 1) ""
                let indent := (original.data.takeWhile
                  (fun c => c.isWhitespace)).length
                let indented := String.mk (List.replicate indent ' ') ++
                  lstrip (match fix.fixed_code with
                          | some fc => fc
                          | Option.none => "")
                lines.set (ln - 1) indented
              else lines
            | Option.none => lines
          else if fix.strategy == FixStrategy.delete && lineTruthy fix.line_number then
            match fix.line_number with
            | some ln =>
              if 0 < ln && ln ≤ lines.length then lines.eraseIdx (ln - 1)
              else lines
            | Option.none => lines
          else if fix.strategy == FixStrategy.insert && lineTruthy fix.line_number then
            match fix.line_number with
            | some ln =>
              if ln ≤ lines.length then
                lines.insertIdx ln (match fix.fixed_code with
                                    | some fc => fc
                                    | Option.none => "")
              else lines
            | Option.none => lines
          else lines
        let joined := String.intercalate "\n" newLines
        let new_content :=
          if joined.data.getLast? == some '\n' then joined else joined ++ "\n"
        (true, { fix with applied := true }, fsWrite fs fp new_content)

/-- Python `str(x)` for the embedded two-decimal confidences. -/
def confRepr (n : Nat) : String :=
  let ip := toString (n / 100)
  let frac := n % 100
  if frac % 10 == 0 then ip ++ "." ++ toString (frac / 10)
  else ip ++ "." ++ (if frac < 10 then "0" else "") ++ toString frac

/-- The per-fix loop of `Fixer.fix_issues` (`qa/fixer.py`
lines 341-360): returns (applied, failed, skipped, filesystem). -/
def fixIssuesGo (auto_apply : Bool) (min_confidence : Nat) :
    FS → List Fix → List Fix × List Fix × List Fix × FS
  | fs, [] => ([], [], [], fs)
  | fs, fix :: rest =>
    if fix.confidence < min_confidence then
      let fix' := { fix with error := some ("Confidence too low (" ++
        confRepr fix.confidence ++ " < " ++ confRepr min_confidence ++ ")") }
      let (a, f, s, fs') := fixIssuesGo auto_apply min_confidence fs rest
      (a, f, fix' :: s, fs')
    else if fix.strategy == FixStrategy.manual then
      let (a, f, s, fs') := fixIssuesGo auto_apply min_confidence fs rest
      (a, f, fix :: s, fs')
    else if auto_apply && strTruthy fix.fixed_code then
      let (ok, fix', fs1) := applyFix fs fix
      let (a, f, s, fs') := fixIssuesGo auto_apply min_confidence fs1 rest
      if ok then (fix' :: a, f, s, fs') else (a, fix' :: f, s, fs')
    else
      let (a, f, s, fs') := fixIssuesGo auto_apply min_confidence fs rest
      (a, f, fix :: s, fs')

/-- `Fixer.fix_issues` (`qa/fixer.py` lines 334-384).  Returns the
`FixResult`, the filesystem after any applied fixes, and whether a
`QA_FIX_REQUEST.md` file was created (spec dir present, as in
`run_qa_fixer`).  Fixes are generated for all issues against the
pre-fix filesystem, as in the source list comprehension. -/
def fixIssues (auto_apply : Bool) (min_confidence : Nat) (fs : FS)
    (issues : List QAIssue) : FixResult × FS × Bool :=
  let fixes := issues.map (generateFix fs)
  let (applied, failed, skipped, fs') :=
    fixIssuesGo auto_apply min_confidence fs fixes
  let non_applied := failed ++ skipped
  let fixRequestCreated := !non_applied.isEmpty
  let critical_failed := failed.filter
    (fun f => f.issue.severity == IssueSeverity.critical)
  if !critical_failed.isEmpty then
    ({ success := false, fixes_applied := applied, fixes_failed := failed,
       fixes_skipped := skipped, ready_for_revalidation := false,
       message := "Failed to fix " ++ toString critical_failed.length ++
         " critical issues" }, fs', fixRequestCreated)
  else
    ({ success := true, fixes_applied := applied, fixes_failed := failed,
       fixes_skipped := skipped, ready_for_revalidation := true,
       message := "Applied " ++ toString applied.length ++ " fixes, " ++
         toString skipped.length ++ " skipped, " ++
         toString failed.length ++ " failed" }, fs', fixRequestCreated)

/-- Outcome of `run_qa_fixer`: status string, fix result, filesystem
after fixes, and the sign-off stored in `implementation_plan.json`
afterwards. -/
structure QaFixerOutcome where
  status : String
  result : FixResult
  fs : FS
  signoff : Option QASignoff
deriving Repr

/-- `run_qa_fixer` (`qa/fixer.py` lines 387-433): errors when there is
no sign-off or no issues; otherwise runs the fixer with the default
`min_confidence` (`0.7`, embedded `70`) and, when ready for
revalidation, stores a fresh `fixes_applied` sign-off with
`ready_for_qa_revalidation=true`. -/
def runQaFixer (fs : FS) (signoff : Option QASignoff) (auto_apply : Bool) :
    QaFixerOutcome :=
  match signoff with
  | Option.none =>
    { status := "error",
      result := { success := false, message := "No issues found to fix" },
      fs := fs, signoff := signoff }
  | some s =>
    if s.issues_found.isEmpty then
      { status := "error",
        result := { success := false, message := "No issues found to fix" },
        fs := fs, signoff := signoff }
    else
      let (result, fs', _) := fixIssues auto_apply 70 fs s.issues_found
      if result.ready_for_revalidation then
        { status := "fixed", result := result, fs := fs',
          signoff := some { status := QAStatus.fixes_applied,
                            qa_session := s.qa_session,
                            ready_for_revalidation := true } }
      else
        { status := "error", result := result, fs := fs', signoff := signoff }

/-! ### agents/session.py : orchestrator operations

Each operation of `SessionOrchestrator` loads the session (from the
active map or the store), mutates it, and saves it; the returned value
below is the record it saves.  The source raises only when the session
does not exist (or, for the message/phase/error operations, silently
returns), so operations are modelled on an existing session.  `datetime`
fields, message metadata, metrics and artifacts never influence the
claims and are elided. -/

/-- `ErrorSeverity` from `agents/base.py`. -/
inductive ErrorSeverity where
  | warning
  | recoverable
  | fatal
deriving DecidableEq, Repr

/-- One conversation message (role and content; timestamp and metadata
elided). -/
structure SessionMessage where
  role : String
  content : String
deriving DecidableEq, Repr

/-- The persisted `SessionData` record (typed fields as the orchestrator
writes them; errors as (message, severity-string) pairs). -/
structure SessionData where
  session_id : String
  spec_id : Option String := Option.none
  task_description : String := ""
  status : String := "pending"
  phase : String := "initializing"
  result : Option String := Option.none
  messages : List SessionMessage := []
  errors : List (String × String) := []
deriving DecidableEq, Repr

/-- `SessionData.add_message`. -/
def addMessage (s : SessionData) (role content : String) : SessionData :=
  { s with messages := s.messages ++ [{ role := role, content := content }] }

/-- `SessionOrchestrator.update_session_phase` (`agents/session.py`
lines 301-319): sets the phase and, when a message is given, appends a
system message; no status check. -/
def updateSessionPhase (s : SessionData) (phase : String)
    (message : Option String) : SessionData :=
  let s1 := { s with phase := phase }
  match message with
  | some m => addMessage s1 "system" m
  | Option.none => s1

/-- `SessionOrchestrator.add_agent_message` (`agents/session.py`
lines 321-336): appends an assistant message and saves; no status
check. -/
def addAgentMessage (s : SessionData) (content : String) : SessionData :=
  addMessage s "assistant" content

/-- `SessionOrchestrator.add_user_message` (lines 338-353). -/
def addUserMessage (s : SessionData) (content : String) : SessionData :=
  addMessage s "user" content

/-- String value of an `ErrorSeverity`. -/
def ErrorSeverity.value : ErrorSeverity → String
  | .warning => "warning"
  | .recoverable => "recoverable"
  | .fatal => "fatal"

/-- `SessionOrchestrator.record_error` (lines 355-379): appends the
error and a system message, and marks the session failed only on a
FATAL severity; no terminal-status check. -/
def recordError (s : SessionData) (message : String)
    (severity : ErrorSeverity) : SessionData :=
  let s1 := { s with errors := s.errors ++ [(message, severity.value)] }
  let s2 := addMessage s1 "system" ("Error: " ++ message)
  if severity == ErrorSeverity.fatal then
    { s2 with status := "failed", phase := "failed" }
  else s2

/-- `SessionOrchestrator.complete_session` (lines 381-417): marks the
session completed and appends a system message; no status check. -/
def completeSession (s : SessionData) (result : String) : SessionData :=
  addMessage
    { s with status := "completed", phase := "completed",
             result := some result }
    "system" ("Session completed: " ++ result)

/-- `SessionOrchestrator.fail_session` (lines 419-451). -/
def failSession (s : SessionData) (reason : String) : SessionData :=
  addMessage
    { s with status := "failed", phase := "failed",
             result := some ("Failed: " ++ reason) }
    "system" ("Session failed: " ++ reason)

/-- `SessionOrchestrator.pause_session` (lines 453-468): sets the status
to paused and appends a system message; no status check. -/
def pauseSession (s : SessionData) : SessionData :=
  addMessage { s with status := "paused" } "system" "Session paused"

/-- `SessionOrchestrator.start_session` (lines 266-299): raises
`ValueError` (before any mutation or save) unless the status is pending
or paused. -/
def startSession (s : SessionData) : Except String SessionData :=
  if s.status == "pending" || s.status == "paused" then
    Except.ok (addMessage
      { s with status := "running", phase := "initializing" }
      "system" "Session started")
  else
    Except.error ("Session " ++ s.session_id ++
      " cannot be started (status: " ++ s.status ++ ")")

/-- `SessionOrchestrator.resume_session` (lines 470-486): raises
`ValueError` (before any mutation or save) unless the status is
paused. -/
def resumeSession (s : SessionData) : Except String SessionData :=
  if s.status == "paused" then
    Except.ok (addMessage { s with status := "running" }
      "system" "Session resumed")
  else
    Except.error ("Session " ++ s.session_id ++
      " is not paused (status: " ++ s.status ++ ")")

/-- The spec's terminal statuses (`completed|failed|cancelled`); the
source itself defines no such set. -/
def isTerminalStatus (st : String) : Bool :=
  st == "completed" || st == "failed" || st == "cancelled"

/-! ### agents/session.py : dynamically-typed loading path

`SessionStore.load` parses JSON and calls `SessionData.from_dict`,
catching only `json.JSONDecodeError` and `KeyError`.  Field values are
assigned without type checks (Python), so the record type here holds
raw JSON values, and only the code paths that can raise do. -/

/-- JSON values as produced by `json.load`. -/
inductive JVal where
  | jnull
  | jbool (b : Bool)
  | jnum (n : Int)
  | jstr (s : String)
  | jarr (xs : List JVal)
  | jobj (fields : List (String × JVal))

/-- The Python exceptions the loading path can raise. -/
inductive PyExc where
  | jsonDecodeError
  | keyError (k : String)
  | valueError (m : String)
  | typeError
deriving DecidableEq, Repr

/-- `data.get(k)`. -/
def jget? (fields : List (String × JVal)) (k : String) : Option JVal :=
  (List.find? (fun e => e.1 == k) fields).map (fun e => e.2)

/-- `data[k]`: raises `KeyError` when absent. -/
def jindex (fields : List (String × JVal)) (k : String) : Except PyExc JVal :=
  match jget? fields k with
  | some v => Except.ok v
  | Option.none => Except.error (PyExc.keyError k)

/-- Python truthiness of a JSON value. -/
def jTruthy : JVal → Bool
  | JVal.jnull => false
  | JVal.jbool b => b
  | JVal.jnum n => n != 0
  | JVal.jstr s => !s.data.isEmpty
  | JVal.jarr xs => !xs.isEmpty
  | JVal.jobj fields => !fields.isEmpty

/-- Modelled from the Python standard library (not repository code):
`datetime.fromisoformat` succeeds on ISO-8601 strings and raises
`ValueError` otherwise; modelled as a shape check on the date part
(`YYYY-MM-DD`, optionally followed by a `T` or space separator and a
time), which accepts the timestamps this codebase writes
(`datetime.isoformat()`) and rejects non-ISO strings. -/
def isoOk (s : String) : Bool :=
  let l := s.data
  decide (10 ≤ l.length) &&
  (l.take 4).all (fun c => c.isDigit) &&
  (l.get? 4 == some '-') &&
  ((l.drop 5).take 2).all (fun c => c.isDigit) &&
  (l.get? 7 == some '-') &&
  ((l.drop 8).take 2).all (fun c => c.isDigit) &&
  (decide (l.length = 10) || l.get? 10 == some 'T' || l.get? 10 == some ' ')

/-- `datetime.fromisoformat` applied to a JSON value: `TypeError` on a
non-string, `ValueError` on a non-ISO string. -/
def fromIso (v : JVal) : Except PyExc String :=
  match v with
  | JVal.jstr s =>
    if isoOk s then Except.ok s
    else Except.error (PyExc.valueError ("Invalid isoformat string: " ++ s))
  | _ => Except.error PyExc.typeError

/-- A loaded `ConversationMessage` (role/content kept as raw JSON,
as Python assigns them without type checks). -/
structure PyMessage where
  role : JVal
  content : JVal
  timestamp : String
  metadata : JVal

/-- `ConversationMessage.from_dict` (`agents/session.py` lines 52-60):
`KeyError` on missing role/content/timestamp, `ValueError` on an
unparseable timestamp, `TypeError` when indexing a non-dict. -/
def messageFromDict (v : JVal) : Except PyExc PyMessage :=
  match v with
  | JVal.jobj fields => do
    let role ← jindex fields "role"
    let content ← jindex fields "content"
    let tsv ← jindex fields "timestamp"
    let ts ← fromIso tsv
    Except.ok { role := role, content := content, timestamp := ts,
                metadata := (jget? fields "metadata").getD (JVal.jobj []) }
  | _ => Except.error PyExc.typeError

/-- Iteration over `data.get("messages", [])`: a list is traversed, an
absent key defaults to `[]`, a string iterates over its characters
(each raising `TypeError` when indexed, so any non-empty string fails),
any other value raises `TypeError` when iterated. -/
def parseMessages : Option JVal → Except PyExc (List PyMessage)
  | Option.none => Except.ok []
  | some (JVal.jarr xs) => xs.mapM messageFromDict
  | some (JVal.jstr s) =>
    if s.data.isEmpty then Except.ok [] else Except.error PyExc.typeError
  | some _ => Except.error PyExc.typeError

/-- A loaded `SessionData` with raw JSON field values. -/
structure PySessionData where
  session_id : JVal
  spec_id : JVal
  task_description : JVal
  status : JVal
  phase : JVal
  result : JVal
  metrics : JVal
  artifacts : JVal
  errors : JVal
  created_at : String
  started_at : Option String
  completed_at : Option String
  messages : List PyMessage

/-- `SessionData.from_dict` (`agents/session.py` lines 128-153), in
source evaluation order: required `session_id`, defaulted fields,
required-and-parsed `created_at`, optionally parsed
`started_at`/`completed_at` (only when truthy), then messages. -/
def sessionFromDict (v : JVal) : Except PyExc PySessionData :=
  match v with
  | JVal.jobj data => do
    let session_id ← jindex data "session_id"
    let spec_id := (jget? data "spec_id").getD JVal.jnull
    let task_description := (jget? data "task_description").getD (JVal.jstr "")
    let status := (jget? data "status").getD (JVal.jstr "pending")
    let phase := (jget? data "phase").getD (JVal.jstr "initializing")
    let result := (jget? data "result").getD JVal.jnull
    let metrics := (jget? data "metrics").getD (JVal.jobj [])
    let artifacts := (jget? data "artifacts").getD (JVal.jobj [])
    let errors := (jget? data "errors").getD (JVal.jarr [])
    let cav ← jindex data "created_at"
    let created_at ← fromIso cav
    let started_at ← match jget? data "started_at" with
      | some sv =>
        if jTruthy sv then (fromIso sv).map some
        else Except.ok (Option.none : Option String)
      | Option.none => Except.ok (Option.none : Option String)
    let completed_at ← match jget? data "completed_at" with
      | some cv =>
        if jTruthy cv then (fromIso cv).map some
        else Except.ok (Option.none : Option String)
      | Option.none => Except.ok (Option.none : Option String)
    let messages ← parseMessages (jget? data "messages")
    Except.ok { session_id := session_id, spec_id := spec_id,
                task_description := task_description, status := status,
                phase := phase, result := result, metrics := metrics,
                artifacts := artifacts, errors := errors,
                created_at := created_at, started_at := started_at,
                completed_at := completed_at, messages := messages }
  | _ => Except.error PyExc.typeError

/-- The exception classes caught by `SessionStore.load`
(`agents/session.py` line 191): `(json.JSONDecodeError, KeyError)`. -/
def isCaught : PyExc → Bool
  | PyExc.jsonDecodeError => true
  | PyExc.keyError _ => true
  | _ => false

/-- `SessionStore.load` for an existing file (`agents/session.py`
lines 176-193): `raw` is the outcome of `json.load`; caught exceptions
(from decoding or `from_dict`) become "not found" (`none`), any other
exception propagates. -/
def storeLoad (raw : Except PyExc JVal) : Except PyExc (Option PySessionData) :=
  match raw with
  | Except.error e =>
    if isCaught e then Except.ok Option.none else Except.error e
  | Except.ok v =>
    match sessionFromDict v with
    | Except.ok s => Except.ok (some s)
    | Except.error e =>
      if isCaught e then Except.ok Option.none else Except.error e

/-! ### core/worktree.py : retry logic, push, worktree creation

The subprocess outcomes of the push attempts are modelled as a function
from the attempt number (1-based) to an outcome; `_with_retry` is
embedded with its observable behavior: the result, the last error, the
number of attempts performed, and the list of backoff sleeps (in
seconds). -/

/-- The transient-error terms of `_is_retryable_network_error`
(`core/worktree.py` lines 39-45). -/
def IS_RETRYABLE_TERMS : List String :=
  ["connection", "network", "timeout", "reset", "refused"]

/-- `_is_retryable_network_error`. -/
def isRetryableNetworkError (stderr : String) : Bool :=
  IS_RETRYABLE_TERMS.any (fun t => containsSub t (toLowerStr stderr))

/-- A match of the regex `http[s]?\s*5\d\x7b2\x7d` starting at the
current position. -/
def httpFiveXXAt (s : List Char) : Bool :=
  if ("http".data).isPrefixOf s then
    let r1 := s.drop 4
    let r2 := if r1.head? == some 's' then r1.drop 1 else r1
    let r3 := r2.dropWhile (fun c => c.isWhitespace)
    match r3 with
    | '5' :: d1 :: d2 :: _ => d1.isDigit && d2.isDigit
    | _ => false
  else false

/-- `re.search` for the HTTP 5xx pattern: try every position. -/
def httpFiveXXSearch : List Char → Bool
  | [] => false
  | c :: rest => httpFiveXXAt (c :: rest) || httpFiveXXSearch rest

/-- `_is_retryable_http_error` (`core/worktree.py` lines 48-55):
HTTP 5xx, or an HTTP timeout.  Defined and unit-tested in the source
but never passed to `_with_retry`. -/
def isRetryableHttpError (stderr : String) : Bool :=
  let l := toLowerStr stderr
  httpFiveXXSearch l.data ||
    (containsSub "http" l && containsSub "timeout" l)

/-- One attempt's outcome: success, a failure with stderr, or
`subprocess.TimeoutExpired`. -/
inductive AttemptOutcome (α : Type) where
  | ok (result : α)
  | fail (error : String)
  | timeout

/-- The loop of `_with_retry` (`core/worktree.py` lines 58-105).
`remaining` counts the attempts left (starting at `max_retries`);
returns (result, last_error, attempts performed, backoff sleeps). -/
def withRetryGo {α : Type} (op : Nat → AttemptOutcome α)
    (is_retryable : Option (String → Bool)) (max_retries : Nat) :
    Nat → Nat → String → List Nat → Option α × String × Nat × List Nat
  | attempt, 0, last_error, sleeps =>
    (Option.none, last_error, attempt - 1, sleeps.reverse)
  | attempt, remaining + 1, _, sleeps =>
    match op attempt with
    | AttemptOutcome.ok r => (some r, "", attempt, sleeps.reverse)
    | AttemptOutcome.fail e =>
      match is_retryable with
      | some f =>
        if attempt < max_retries && f e then
          withRetryGo op is_retryable max_retries (attempt + 1) remaining e
            ((2 ^ (attempt - 1)) :: sleeps)
        else (Option.none, e, attempt, sleeps.reverse)
      | Option.none => (Option.none, e, attempt, sleeps.reverse)
    | AttemptOutcome.timeout =>
      if attempt < max_retries then
        withRetryGo op is_retryable max_retries (attempt + 1) remaining
          "Operation timed out" ((2 ^ (attempt - 1)) :: sleeps)
      else (Option.none, "Operation timed out", attempt, sleeps.reverse)

/-- `_with_retry` entry point (attempts start at 1, last_error starts
empty). -/
def withRetry {α : Type} (op : Nat → AttemptOutcome α) (max_retries : Nat)
    (is_retryable : Option (String → Bool)) :
    Option α × String × Nat × List Nat :=
  withRetryGo op is_retryable max_retries 1 max_retries "" []

/-- `PushBranchResult` from `core/worktree.py` (TypedDict,
`total=False`). -/
structure PushBranchResult where
  success : Bool
  branch : Option String := Option.none
  remote : Option String := Option.none
  error : Option String := Option.none
deriving DecidableEq, Repr

/-- `WorktreeManager.push_branch` (`core/worktree.py` lines 601-663):
no worktree yields a structured failure; otherwise the push runs under
`_with_retry` with `max_retries=3` and `_is_retryable_network_error`
(the HTTP matcher is not wired in), and exhaustion yields a structured
"timed out" or "failed" record.  Returns the result together with the
attempts performed and the sleeps. -/
def pushBranch (spec_name : String) (worktree_branch : Option String)
    (op : Nat → AttemptOutcome Unit) :
    PushBranchResult × Nat × List Nat :=
  match worktree_branch with
  | Option.none =>
    ({ success := false,
       error := some ("No worktree found for spec: " ++ spec_name) }, 0, [])
  | some branch =>
    let (result, last_error, attempts, sleeps) :=
      withRetry op 3 (some isRetryableNetworkError)
    match result with
    | some _ =>
      ({ success := true, branch := some branch, remote := some "origin" },
        attempts, sleeps)
    | Option.none =>
      if last_error == "Operation timed out" then
        ({ success := false, branch := some branch,
           error := some "Push timed out after 3 attempts." },
          attempts, sleeps)
      else
        ({ success := false, branch := some branch,
           error := some ("Failed to push branch: " ++ last_error) },
          attempts, sleeps)

/-- The branch namespace prefix of `WorktreeManager`. -/
def WORKTREE_NAMESPACE : String := "claude-god-code"

/-- `WorktreeManager.get_branch_name`. -/
def branchName (spec_name : String) : String :=
  WORKTREE_NAMESPACE ++ "/" ++ spec_name

/-- Chunks of the conflict error of `create_worktree`
(`core/worktree.py` lines 349-357), split around the two `spec_name`
interpolations. -/
def conflictMsgPre : String :=
  "Branch \x27claude-god-code\x27 exists and blocks creating \x27claude-god-code/"

/-- Middle chunk of the conflict error. -/
def conflictMsgMid : String :=
  "\x27.\n\nGit branch names work like file paths - a branch named \x27claude-god-code\x27 prevents\ncreating branches under \x27claude-god-code/\x27 (like \x27claude-god-code/"

/-- Final chunk of the conflict error, ending in the rename
suggestion. -/
def conflictMsgSuf : String :=
  "\x27).\n\nFix: Rename the conflicting branch:\n  git branch -m claude-god-code claude-god-code-backup"

/-- The full `WorktreeError` message raised on a namespace conflict. -/
def namespaceConflictMsg (spec_name : String) : String :=
  conflictMsgPre ++ spec_name ++ conflictMsgMid ++ spec_name ++
    conflictMsgSuf

/-- Git commands issued by `create_worktree`, in source order. -/
inductive GitCmd where
  | revParseVerify (ref : String)
  | worktreeRemove (path : String)
  | branchDelete (branch : String)
  | fetch (remote branch : String)
  | worktreeAdd (branch path start_point : String)
deriving DecidableEq, Repr

/-- Whether a git command modifies repository state (`rev-parse
--verify` is a pure query; `fetch` updates remote-tracking refs). -/
def GitCmd.isMutating : GitCmd → Bool
  | GitCmd.revParseVerify _ => false
  | _ => true

/-- Outcome of `create_worktree`: the git commands issued and either
the created (branch, worktree path) or the `WorktreeError` message. -/
structure CreateWorktreeOutcome where
  trace : List GitCmd
  result : Except String (String × String)

/-- `WorktreeManager.create_worktree` (`core/worktree.py`
lines 331-396): the namespace-conflict check
(`_check_branch_namespace_conflict`, lines 265-270, a `rev-parse
--verify claude-god-code` query modelled by membership in `branches`)
runs first and raises before any other git command; otherwise the
source-order command sequence runs (worktree remove when the directory
exists, branch delete, fetch, remote-ref probe, worktree add whose
success is the parameter `add_ok`). -/
def createWorktree (branches : List String)
    (worktree_exists remote_ref_exists add_ok : Bool)
    (spec_name base_branch : String) : CreateWorktreeOutcome :=
  let check := GitCmd.revParseVerify WORKTREE_NAMESPACE
  if branches.contains WORKTREE_NAMESPACE then
    { trace := [check], result := Except.error (namespaceConflictMsg spec_name) }
  else
    let t1 := if worktree_exists then [GitCmd.worktreeRemove spec_name] else []
    let start_point :=
      if remote_ref_exists then "origin/" ++ base_branch else base_branch
    let trace := check :: (t1 ++
      [GitCmd.branchDelete (branchName spec_name),
       GitCmd.fetch "origin" base_branch,
       GitCmd.revParseVerify ("origin/" ++ base_branch),
       GitCmd.worktreeAdd (branchName spec_name) spec_name start_point])
    if add_ok then
      { trace := trace, result := Except.ok (branchName spec_name, spec_name) }
    else
      { trace := trace,
        result := Except.error
          ("Failed to create worktree for " ++ spec_name ++ ": ") }

/-! ### Concrete inputs used by counterexamples and witnesses -/

/-- The task description of the spec's complexity acceptance example. -/
def c5Task : String :=
  "Migrate the Postgres schema and deploy a new Kubernetes service for authentication"

/-- The low-severity Debug Statements issue of the spec's fixer
acceptance example, located at line 3 of `src/bad.py`. -/
def c4Issue : QAIssue :=
  { title := "Debug Statements", severity := IssueSeverity.low,
    description := "Found debug print", location := some "src/bad.py:3" }

/-- A repository whose file `src/bad.py` has `print("x")` on line 3. -/
def c4FS : FS :=
  [("src/bad.py", "import os\nimport sys\nprint(\x22x\x22)\nmain()\n")]

/-- The rejected sign-off carrying the Debug Statements issue. -/
def c4Signoff : QASignoff :=
  { status := QAStatus.rejected, issues_found := [c4Issue] }

/-- A sign-off whose only issue generates a MANUAL fix (skipped), so
zero fixes get applied while no critical fix fails. -/
def c10Signoff : QASignoff :=
  { status := QAStatus.rejected,
    issues_found := [{ title := "Todo Comments",
                       severity := IssueSeverity.low,
                       description := "TODO found",
                       location := some "test.py:1" }] }

/-- Push attempts that fail once with an HTTP 502 diagnostic and would
succeed on a second attempt. -/
def c7HttpOp : Nat → AttemptOutcome Unit :=
  fun n => if n == 1 then AttemptOutcome.fail "HTTP 502 Bad Gateway"
           else AttemptOutcome.ok ()

/-- Push attempts that always fail with a non-transient diagnostic. -/
def c7FailOp : Nat → AttemptOutcome Unit :=
  fun _ => AttemptOutcome.fail "Permission denied"

/-- Push attempts that always time out. -/
def c7TimeoutOp : Nat → AttemptOutcome Unit := fun _ => AttemptOutcome.timeout

/-- A session record in the terminal status `completed`. -/
def c1Session : SessionData :=
  { session_id := "s-1", status := "completed", phase := "completed" }

/-- Stored session data that is well-formed JSON with all required keys
but an unparseable `created_at` timestamp. -/
def c9BadDict : JVal :=
  JVal.jobj [("session_id", JVal.jstr "s-1"),
             ("created_at", JVal.jstr "garbage")]

/-- Stored session data missing the required `session_id` key. -/
def c9MissingKeyDict : JVal := JVal.jobj []

/-- A low-severity issue whose title recurs in the C3 counterexample. -/
def c3Issue : QAIssue := { title := "Unused Imports", severity := IssueSeverity.low }

/-- A two-record iteration history: the title occurs twice in the first
record and once in the second. -/
def c3History : List (List QAIssue) := [[c3Issue, c3Issue], [c3Issue]]

/-! ### Helper lemmas -/

theorem mem_dedupFirst {x : String} {l : List String} :
    x ∈ dedupFirst l ↔ x ∈ l := by
  induction l with
  | nil => simp [dedupFirst]
  | cons t ts ih =>
    simp only [dedupFirst, List.mem_cons, List.mem_filter, ih,
      decide_eq_true_eq]
    by_cases hx : x = t <;> simp [hx]

theorem fileScore_mono {a b : Nat} (h : a ≤ b) : fileScore a ≤ fileScore b := by
  unfold fileScore
  split_ifs <;> omega

theorem bcScore_append (bcs : List BreakingChange) (b : BreakingChange) :
    bcScore bcs ≤ bcScore (bcs ++ [b]) := by
  unfold bcScore
  cases hm : bcs.any (fun bc => bc.migration_required) <;>
    cases hb : b.migration_required <;>
      simp [List.any_append, hm, hb, List.length_append] <;>
        split_ifs <;> omega

theorem severityOfScore_rank_mono {a b : Nat} (h : a ≤ b) :
    (severityOfScore a).rank ≤ (severityOfScore b).rank := by
  unfold severityOfScore
  split_ifs <;> simp_all [ImpactSeverity.rank] <;> omega

theorem listInfix_append_left (w a b : List Char)
    (h : listInfix w a = true) : listInfix w (a ++ b) = true := by
  induction a with
  | nil =>
    simp only [listInfix] at h
    have hw : w = [] := List.isEmpty_iff.mp h
    subst hw
    cases b <;> simp [listInfix, List.isPrefixOf]
  | cons c arest ih =>
    simp only [List.cons_append, listInfix, Bool.or_eq_true] at h ⊢
    rcases h with h | h
    · left
      rw [List.isPrefixOf_iff_prefix] at h ⊢
      exact h.trans (List.prefix_append (c :: arest) b)
    · right; exact ih h

theorem listInfix_append_right (w a b : List Char)
    (h : listInfix w b = true) : listInfix w (a ++ b) = true := by
  induction a with
  | nil => simpa
  | cons c arest ih =>
    simp only [List.cons_append, listInfix, Bool.or_eq_true]
    right; exact ih

theorem conflictMsg_contains_branch (spec_name : String) :
    containsSub "claude-god-code" (namespaceConflictMsg spec_name) = true := by
  unfold containsSub namespaceConflictMsg
  simp only [String.data_append, List.append_assoc]
  exact listInfix_append_left _ _ _ (by rfl)

theorem conflictMsg_contains_rename (spec_name : String) :
    containsSub "git branch -m claude-god-code claude-god-code-backup"
      (namespaceConflictMsg spec_name) = true := by
  unfold containsSub namespaceConflictMsg
  simp only [String.data_append, List.append_assoc]
  exact listInfix_append_right _ _ _ (listInfix_append_right _ _ _
    (listInfix_append_right _ _ _ (listInfix_append_right _ _ _ (by rfl))))

/-! ### Claim theorems -/

/-- C2: for every review run (modelled by its found issues, test results
and whether the review raised), the verdict is `"approved"` iff there is
no critical issue, fewer than three high-severity issues, and all
executed tests passed; otherwise it is `"rejected"`, and `"error"`
exactly when the review raised. -/
theorem C2_qa_review_verdict (issues : List QAIssue) (tr : TestResults) :
    (runQaReviewStatus false issues tr = "approved" ↔
      ((issues.filter (fun i => i.severity == IssueSeverity.critical)).isEmpty = true ∧
       (issues.filter (fun i => i.severity == IssueSeverity.high)).length < 3 ∧
       tr.allPassed = true)) ∧
    (runQaReviewStatus false issues tr = "approved" ∨
     runQaReviewStatus false issues tr = "rejected") ∧
    runQaReviewStatus true issues tr = "error" := by
  unfold runQaReviewStatus reviewPassed
  refine ⟨?_, ?_, rfl⟩ <;>
    cases hc : (issues.filter (fun i => i.severity == IssueSeverity.critical)).isEmpty <;>
      cases ha : tr.allPassed <;>
        by_cases hh : 3 ≤ (issues.filter (fun i => i.severity == IssueSeverity.high)).length <;>
          simp [hc, ha, hh] <;> omega

/-- C3 counterexample: the title "Unused Imports" appears in only 2
distinct iteration records (twice in the first, once in the second), yet
`get_recurring_issues` reports it (total occurrences = 3) and
`_should_escalate` escalates — refuting the claim that a title appearing
in exactly 2 iteration records never triggers escalation. -/
theorem C3_counterexample :
    recurringTitles c3History = ["Unused Imports"] ∧
    (c3History.filter
      (fun r => r.any (fun i => i.title == "Unused Imports"))).length = 2 ∧
    shouldEscalate c3History 0 MAX_CONSECUTIVE_ERRORS = true :=
  ⟨rfl, rfl, rfl⟩

/-- C3 amended: a title is classified as recurring (and, absent
consecutive-error exhaustion, triggers escalation) exactly when its
total number of occurrences across all iteration records is at least 3;
the records containing it need not be distinct. -/
theorem C3_recurring_counts_total_occurrences
    (history : List (List QAIssue)) (t : String) (e m : Nat) :
    (t ∈ recurringTitles history ↔
      RECURRING_ISSUE_THRESHOLD ≤ countTitle history t) ∧
    (shouldEscalate history e m = true ↔
      ((∃ t0, RECURRING_ISSUE_THRESHOLD ≤ countTitle history t0) ∨ m ≤ e)) := by
  have hmem : ∀ s : String, s ∈ recurringTitles history ↔
      RECURRING_ISSUE_THRESHOLD ≤ countTitle history s := by
    intro s
    simp only [recurringTitles, List.mem_filter, mem_dedupFirst,
      decide_eq_true_eq]
    constructor
    · rintro ⟨_, h⟩; exact h
    · intro h
      refine ⟨?_, h⟩
      have hpos : 0 < (allTitles history).count s := by
        have : (0 : Nat) < RECURRING_ISSUE_THRESHOLD := by decide
        unfold countTitle at h
        omega
      exact List.count_pos_iff.mp hpos
  refine ⟨hmem t, ?_⟩
  unfold shouldEscalate
  cases hne : (recurringTitles history).isEmpty with
  | true =>
    have hnil : recurringTitles history = [] := List.isEmpty_iff.mp hne
    simp only [hne, Bool.not_true, Bool.false_or, decide_eq_true_eq]
    constructor
    · intro h; exact Or.inr h
    · rintro (⟨t0, h0⟩ | h)
      · exact absurd ((hmem t0).mpr h0) (by simp [hnil])
      · exact h
  | false =>
    have hex : ∃ t0, t0 ∈ recurringTitles history := by
      rcases List.isEmpty_eq_false.mp hne with hne'
      rcases List.exists_mem_of_ne_nil _ hne' with ⟨t0, h0⟩
      exact ⟨t0, h0⟩
    rcases hex with ⟨t0, h0⟩
    simp only [hne, Bool.not_false, Bool.true_or, true_iff]
    exact Or.inl ⟨t0, (hmem t0).mp h0⟩

/-- C5 counterexample: on the task "Migrate the Postgres schema and
deploy a new Kubernetes service for authentication" the analyzer returns
complexity `complex`, not `critical` (only one critical keyword,
"schema", matches; one service; two integrations), and `"auth"` is not
among the detected integrations (the auth regex matches only
auth0/okta/oauth/jwt, none of which occurs in "authentication"). -/
theorem C5_counterexample :
    (analyze Option.none c5Task Option.none).complexity = Complexity.complex ∧
    ((analyze Option.none c5Task Option.none).complexity ==
      Complexity.critical) = false ∧
    ((analyze Option.none c5Task Option.none).external_integrations.contains
      "auth") = false := by
  refine ⟨?_, ?_, ?_⟩ <;> rfl

/-- C5 amended: on that task the analyzer returns
`complexity = "complex"`, `needs_impact_analysis = true`,
`infrastructure_changes = true`, and
`external_integrations = [database, container]` (so ⊇ {database,
container} but without auth). -/
theorem C5_complexity_on_migration_task :
    (analyze Option.none c5Task Option.none).complexity = Complexity.complex ∧
    (analyze Option.none c5Task Option.none).needs_impact_analysis = true ∧
    (analyze Option.none c5Task Option.none).infrastructure_changes = true ∧
    (analyze Option.none c5Task Option.none).external_integrations =
      ["database", "container"] := by
  refine ⟨?_, ?_, ?_, ?_⟩ <;> rfl

/-- C6: the impact-severity score is monotone under adding one affected
file or one breaking change (all other inputs held fixed), and hence the
resulting severity level (under the score mapping `≥10` critical, `≥7`
high, `≥4` medium, `≥1` low, else none) never decreases. -/
theorem C6_impact_severity_monotone
    (affected_files affected_services : List String)
    (breaking_changes : List BreakingChange) (test_gaps : List String)
    (rollback_complexity : String) (f : String) (b : BreakingChange) :
    severityScore affected_files affected_services breaking_changes
        test_gaps rollback_complexity ≤
      severityScore (affected_files ++ [f]) affected_services
        breaking_changes test_gaps rollback_complexity ∧
    severityScore affected_files affected_services breaking_changes
        test_gaps rollback_complexity ≤
      severityScore affected_files affected_services
        (breaking_changes ++ [b]) test_gaps rollback_complexity ∧
    (calculateSeverity affected_files affected_services breaking_changes
        test_gaps rollback_complexity).rank ≤
      (calculateSeverity (affected_files ++ [f]) affected_services
        breaking_changes test_gaps rollback_complexity).rank ∧
    (calculateSeverity affected_files affected_services breaking_changes
        test_gaps rollback_complexity).rank ≤
      (calculateSeverity affected_files affected_services
        (breaking_changes ++ [b]) test_gaps rollback_complexity).rank := by
  have h1 : severityScore affected_files affected_services breaking_changes
      test_gaps rollback_complexity ≤
      severityScore (affected_files ++ [f]) affected_services
        breaking_changes test_gaps rollback_complexity := by
    unfold severityScore
    have := fileScore_mono
      (a := affected_files.length) (b := (affected_files ++ [f]).length)
      (by simp)
    omega
  have h2 : severityScore affected_files affected_services breaking_changes
      test_gaps rollback_complexity ≤
      severityScore affected_files affected_services
        (breaking_changes ++ [b]) test_gaps rollback_complexity := by
    unfold severityScore
    have := bcScore_append breaking_changes b
    omega
  exact ⟨h1, h2, severityOfScore_rank_mono h1, severityOfScore_rank_mono h2⟩

/-- C1 counterexample: on a `completed` (terminal) session,
`pause_session` performs no status check — it returns successfully,
flips the persisted status to `paused`, and appends a message (so the
record changes); `add_agent_message` likewise appends and saves.  This
refutes the claim that every mutating operation on a terminal session
returns an error and leaves the record unchanged. -/
theorem C1_counterexample :
    isTerminalStatus c1Session.status = true ∧
    (pauseSession c1Session).status = "paused" ∧
    decide (pauseSession c1Session = c1Session) = false ∧
    (addAgentMessage c1Session "Agent response").messages =
      c1Session.messages ++
        [{ role := "assistant", content := "Agent response" }] :=
  ⟨rfl, rfl, rfl, rfl⟩

/-- C1 amended: terminal statuses are guarded only at start/resume —
`start_session` and `resume_session` raise (before any mutation or
save) on a terminal session, while the remaining mutating operations
(pause, complete, fail, update_phase, message appends, record_error)
perform no terminal-state check and mutate and save the record. -/
theorem C1_terminal_guard_only_on_start_resume (s : SessionData)
    (h : isTerminalStatus s.status = true) :
    startSession s = Except.error ("Session " ++ s.session_id ++
      " cannot be started (status: " ++ s.status ++ ")") ∧
    resumeSession s = Except.error ("Session " ++ s.session_id ++
      " is not paused (status: " ++ s.status ++ ")") ∧
    (pauseSession s).status = "paused" ∧
    (completeSession s "r").status = "completed" ∧
    (failSession s "r").status = "failed" ∧
    (updateSessionPhase s "p" Option.none).phase = "p" ∧
    (addAgentMessage s "m").messages =
      s.messages ++ [{ role := "assistant", content := "m" }] ∧
    (addUserMessage s "m").messages =
      s.messages ++ [{ role := "user", content := "m" }] ∧
    (recordError s "m" ErrorSeverity.warning).errors =
      s.errors ++ [("m", "warning")] := by
  have h3 : (s.status = "completed" ∨ s.status = "failed") ∨
      s.status = "cancelled" := by
    simpa [isTerminalStatus] using h
  have hcond : (s.status == "pending" || s.status == "paused") = false := by
    rcases h3 with (h3 | h3) | h3 <;> simp [h3]
  have hp : (s.status == "paused") = false := by
    rcases h3 with (h3 | h3) | h3 <;> simp [h3]
  refine ⟨?_, ?_, rfl, rfl, rfl, rfl, rfl, rfl, rfl⟩
  · simp [startSession, hcond]
  · simp [resumeSession, hp]

/-- Closed witness for the amended C1 at the concrete completed
session. -/
theorem C1_terminal_guard_witness :
    isTerminalStatus c1Session.status = true ∧
    startSession c1Session = Except.error ("Session " ++
      c1Session.session_id ++ " cannot be started (status: " ++
      c1Session.status ++ ")") ∧
    resumeSession c1Session = Except.error ("Session " ++
      c1Session.session_id ++ " is not paused (status: " ++
      c1Session.status ++ ")") :=
  ⟨rfl, (C1_terminal_guard_only_on_start_resume c1Session rfl).1,
    (C1_terminal_guard_only_on_start_resume c1Session rfl).2.1⟩

/-- C9 counterexample: stored data that is valid JSON with all required
keys but an unparseable `created_at` timestamp makes the load raise
`ValueError` (uncaught — the except clause lists only `JSONDecodeError`
and `KeyError`) instead of returning "not found". -/
theorem C9_counterexample :
    storeLoad (Except.ok c9BadDict) =
      Except.error (PyExc.valueError "Invalid isoformat string: garbage") ∧
    isCaught (PyExc.valueError "Invalid isoformat string: garbage") = false :=
  ⟨rfl, rfl⟩

/-- C9 amended: loading malformed stored data returns "not found"
(`none`) exactly when the failure is a JSON decode error or a missing
key (`KeyError`); any other failure of `from_dict` — such as the
`ValueError` from an unparseable timestamp — propagates as an
exception. -/
theorem C9_load_catches_only_json_and_key_errors (v : JVal) (e : PyExc) :
    (storeLoad (Except.error PyExc.jsonDecodeError) = Except.ok Option.none) ∧
    (sessionFromDict v = Except.error e → isCaught e = true →
      storeLoad (Except.ok v) = Except.ok Option.none) ∧
    (sessionFromDict v = Except.error e → isCaught e = false →
      storeLoad (Except.ok v) = Except.error e) := by
  refine ⟨rfl, ?_, ?_⟩ <;>
    · intro he hc
      simp [storeLoad, he, hc]

/-- Closed witness for the amended C9: a record missing `session_id`
fails `from_dict` with a caught `KeyError`, so the load returns
`none`. -/
theorem C9_load_witness :
    sessionFromDict c9MissingKeyDict =
      Except.error (PyExc.keyError "session_id") ∧
    isCaught (PyExc.keyError "session_id") = true ∧
    storeLoad (Except.ok c9MissingKeyDict) = Except.ok Option.none :=
  ⟨rfl, rfl,
    (C9_load_catches_only_json_and_key_errors c9MissingKeyDict
      (PyExc.keyError "session_id")).2.1 rfl rfl⟩

/-- C4: on the spec's fixer acceptance example (auto_apply, default
min-confidence 0.7, one low-severity "Debug Statements" issue at
`src/bad.py:3`), the generated fix is a DELETE-strategy fix with
confidence 0.8 ≥ 0.7 and not MANUAL — so per the spec it must be
applied — yet `fix_issues` skips it (its `auto_apply and fix.fixed_code`
gate requires a truthy `fixed_code`, which DELETE fixes never carry,
contradicting `_apply_fix`'s own handling of DELETE without
`fixed_code`): the file is unchanged, zero fixes are applied, and the
sign-off is still rewritten to `fixes_applied` /
`ready_for_qa_revalidation=true`.  `_apply_fix` alone would have
removed line 3. -/
theorem C4_delete_fix_skipped_not_applied :
    (generateFix c4FS c4Issue).strategy = FixStrategy.delete ∧
    70 ≤ (generateFix c4FS c4Issue).confidence ∧
    ((generateFix c4FS c4Issue).strategy == FixStrategy.manual) = false ∧
    (runQaFixer c4FS (some c4Signoff) true).status = "fixed" ∧
    (runQaFixer c4FS (some c4Signoff) true).fs = c4FS ∧
    (runQaFixer c4FS (some c4Signoff) true).result.fixes_applied = [] ∧
    (runQaFixer c4FS (some c4Signoff) true).result.fixes_skipped.length = 1 ∧
    (runQaFixer c4FS (some c4Signoff) true).signoff =
      some { status := QAStatus.fixes_applied, qa_session := 1,
             ready_for_revalidation := true } ∧
    (applyFix c4FS (generateFix c4FS c4Issue)).1 = true ∧
    fsRead (applyFix c4FS (generateFix c4FS c4Issue)).2.2 "src/bad.py" =
      some "import os\nimport sys\nmain()\n" := by
  refine ⟨?_, ?_, ?_, ?_, ?_, ?_, ?_, ?_, ?_, ?_⟩ <;> first | rfl | decide

/-- C10: whenever no critical-severity fix fails to apply, `fix_issues`
reports success with `ready_for_revalidation=true`, and `run_qa_fixer`
(on a sign-off with a non-empty issue list) returns `"fixed"` and
overwrites the stored sign-off to `fixes_applied` with
`ready_for_qa_revalidation=true` — regardless of how many fixes were
actually applied. -/
theorem C10_fix_phase_reports_success (fs : FS) (s : QASignoff)
    (auto_apply : Bool)
    (h1 : s.issues_found.isEmpty = false)
    (h2 : ((fixIssues auto_apply 70 fs s.issues_found).1.fixes_failed.filter
      (fun f => f.issue.severity == IssueSeverity.critical)).isEmpty = true) :
    (fixIssues auto_apply 70 fs s.issues_found).1.success = true ∧
    (fixIssues auto_apply 70 fs s.issues_found).1.ready_for_revalidation = true ∧
    (runQaFixer fs (some s) auto_apply).status = "fixed" ∧
    (runQaFixer fs (some s) auto_apply).signoff =
      some { status := QAStatus.fixes_applied, qa_session := s.qa_session,
             ready_for_revalidation := true } := by
  rcases hgo : fixIssuesGo auto_apply 70 fs (s.issues_found.map (generateFix fs))
    with ⟨applied, failed, skipped, fs2⟩
  simp only [fixIssues, hgo] at h2
  have hfail : (failed.filter
      (fun f => f.issue.severity == IssueSeverity.critical)).isEmpty = true := by
    split at h2 <;> simpa using h2
  have hcond : (!(failed.filter
      (fun f => f.issue.severity == IssueSeverity.critical)).isEmpty) = false := by
    simp [hfail]
  refine ⟨?_, ?_, ?_, ?_⟩ <;>
    simp [fixIssues, runQaFixer, hgo, h1, hcond]

/-- Closed witness for C10: a sign-off with one Todo Comments issue —
its MANUAL fix is skipped below the confidence threshold, so zero fixes
are applied, no critical fix fails, and the outcome is still "fixed"
with a fresh `fixes_applied` sign-off. -/
theorem C10_fix_phase_reports_success_witness :
    c10Signoff.issues_found.isEmpty = false ∧
    ((fixIssues true 70 ([] : FS) c10Signoff.issues_found).1.fixes_failed.filter
      (fun f => f.issue.severity == IssueSeverity.critical)).isEmpty = true ∧
    (fixIssues true 70 ([] : FS) c10Signoff.issues_found).1.fixes_applied = [] ∧
    ((fixIssues true 70 ([] : FS) c10Signoff.issues_found).1.success = true ∧
     (fixIssues true 70 ([] : FS) c10Signoff.issues_found).1.ready_for_revalidation = true ∧
     (runQaFixer ([] : FS) (some c10Signoff) true).status = "fixed" ∧
     (runQaFixer ([] : FS) (some c10Signoff) true).signoff =
       some { status := QAStatus.fixes_applied,
              qa_session := c10Signoff.qa_session,
              ready_for_revalidation := true }) :=
  ⟨rfl, rfl, rfl,
    C10_fix_phase_reports_success ([] : FS) c10Signoff true rfl rfl⟩

/-- C7 counterexample: an HTTP 5xx diagnostic without any of the
network terms matches `_is_retryable_http_error` — but `push_branch`
wires only `_is_retryable_network_error` into `_with_retry`, so the
push is not retried: one attempt, no backoff sleep, structured failure,
even though the second attempt would have succeeded.  This refutes the
"or matches HTTP 5xx" part of the retry condition. -/
theorem C7_counterexample :
    isRetryableHttpError "HTTP 502 Bad Gateway" = true ∧
    isRetryableNetworkError "HTTP 502 Bad Gateway" = false ∧
    c7HttpOp 2 = AttemptOutcome.ok () ∧
    (pushBranch "spec-x" (some (branchName "spec-x")) c7HttpOp).2.1 = 1 ∧
    (pushBranch "spec-x" (some (branchName "spec-x")) c7HttpOp).2.2 =
      ([] : List Nat) ∧
    (pushBranch "spec-x" (some (branchName "spec-x")) c7HttpOp).1 =
      { success := false, branch := some (branchName "spec-x"),
        error := some "Failed to push branch: HTTP 502 Bad Gateway" } :=
  ⟨rfl, rfl, rfl, rfl, rfl, rfl⟩

/-- C7 amended: `push_branch` retries a failed push only when the
diagnostic contains one of {connection, network, timeout, reset,
refused} (or the attempt raised a subprocess timeout), sleeping
`2^(attempt-1)` seconds between attempts for at most 3 attempts, and
after exhaustion returns a structured failure record ("timed out" for
timeouts); an HTTP 5xx diagnostic without those substrings fails
immediately without retry. -/
theorem C7_push_retry_behavior (op : Nat → AttemptOutcome Unit)
    (spec_name branch e : String) :
    (pushBranch spec_name (some branch) op).2.1 ≤ 3 ∧
    (pushBranch spec_name (some branch) op).2.2 =
      (List.range ((pushBranch spec_name (some branch) op).2.1 - 1)).map
        (fun i => 2 ^ i) ∧
    (op 1 = AttemptOutcome.fail e → isRetryableNetworkError e = false →
      (e == "Operation timed out") = false →
      pushBranch spec_name (some branch) op =
        ({ success := false, branch := some branch,
           error := some ("Failed to push branch: " ++ e) }, 1, [])) ∧
    (op 1 = AttemptOutcome.fail e → isRetryableNetworkError e = true →
      op 2 = AttemptOutcome.ok () →
      pushBranch spec_name (some branch) op =
        ({ success := true, branch := some branch,
           remote := some "origin" }, 2, [1])) ∧
    (op 1 = AttemptOutcome.timeout → op 2 = AttemptOutcome.timeout →
      op 3 = AttemptOutcome.timeout →
      pushBranch spec_name (some branch) op =
        ({ success := false, branch := some branch,
           error := some "Push timed out after 3 attempts." }, 3, [1, 2])) := by
  refine ⟨?_, ?_, ?_, ?_, ?_⟩
  case _ | _ =>
    rcases h1 : op 1 with r1 | e1 | _ <;>
      rcases h2 : op 2 with r2 | e2 | _ <;>
        rcases h3 : op 3 with r3 | e3 | _ <;>
          simp [pushBranch, withRetry, withRetryGo, h1, h2, h3] <;>
            (try split_ifs) <;>
              first
                | decide
                | omega
                | simp_all [List.range_succ]
  case _ =>
    intro h1 hr hto
    simp [pushBranch, withRetry, withRetryGo, h1, hr, hto]
  case _ =>
    intro h1 hr h2
    simp [pushBranch, withRetry, withRetryGo, h1, hr, h2]
  case _ =>
    intro h1 h2 h3
    simp [pushBranch, withRetry, withRetryGo, h1, h2, h3]

/-- Closed witness for the amended C7 at concrete attempt streams: a
non-retryable failure stops after one attempt; three timeouts exhaust
the retries with backoffs 1 and 2 seconds and a structured "timed out"
record. -/
theorem C7_push_retry_witness :
    c7FailOp 1 = AttemptOutcome.fail "Permission denied" ∧
    isRetryableNetworkError "Permission denied" = false ∧
    pushBranch "spec-x" (some (branchName "spec-x")) c7FailOp =
      ({ success := false, branch := some (branchName "spec-x"),
         error := some "Failed to push branch: Permission denied" }, 1, []) ∧
    pushBranch "spec-x" (some (branchName "spec-x")) c7TimeoutOp =
      ({ success := false, branch := some (branchName "spec-x"),
         error := some "Push timed out after 3 attempts." }, 3, [1, 2]) :=
  ⟨rfl, rfl,
    (C7_push_retry_behavior c7FailOp "spec-x" (branchName "spec-x")
      "Permission denied").2.2.1 rfl rfl rfl,
    (C7_push_retry_behavior c7TimeoutOp "spec-x" (branchName "spec-x")
      "").2.2.2.2 rfl rfl rfl⟩

/-- C8: whenever a plain branch equal to the namespace prefix
`claude-god-code` exists, `create_worktree` fails with the structured
`WorktreeError` whose message names the conflicting branch and suggests
the rename command, after issuing only the read-only `rev-parse
--verify` probe — no worktree directory is created and no other git
state is modified before the failure. -/
theorem C8_worktree_namespace_conflict (branches : List String)
    (worktree_exists remote_ref_exists add_ok : Bool)
    (spec_name base_branch : String)
    (h : branches.contains WORKTREE_NAMESPACE = true) :
    createWorktree branches worktree_exists remote_ref_exists add_ok
        spec_name base_branch =
      { trace := [GitCmd.revParseVerify WORKTREE_NAMESPACE],
        result := Except.error (namespaceConflictMsg spec_name) } ∧
    ([GitCmd.revParseVerify WORKTREE_NAMESPACE].filter GitCmd.isMutating)
      = [] ∧
    containsSub "claude-god-code" (namespaceConflictMsg spec_name) = true ∧
    containsSub "git branch -m claude-god-code claude-god-code-backup"
      (namespaceConflictMsg spec_name) = true :=
  ⟨by
    have hmem : WORKTREE_NAMESPACE ∈ branches := by simpa using h
    simp [createWorktree, hmem],
   rfl,
   conflictMsg_contains_branch spec_name,
   conflictMsg_contains_rename spec_name⟩

/-- Closed witness for C8 at a concrete repository with a plain
`claude-god-code` branch. -/
theorem C8_worktree_namespace_conflict_witness :
    (["claude-god-code", "main"] : List String).contains
      WORKTREE_NAMESPACE = true ∧
    createWorktree ["claude-god-code", "main"] false false true
        "spec-x" "main" =
      { trace := [GitCmd.revParseVerify WORKTREE_NAMESPACE],
        result := Except.error (namespaceConflictMsg "spec-x") } :=
  ⟨rfl, (C8_worktree_namespace_conflict ["claude-god-code", "main"]
    false false true "spec-x" "main" rfl).1⟩

end GodCode
